import Mathlib

/-!
# Verification of the AIS Fleet vessel registry pipeline

Shallow embedding of the state-relevant logic of the signalk-aisfleet
plugin (plugin/index.js): the in-memory vessel registry (a JS Map from
vessel identifier to record, plus a Set of cloud-provenance identifiers),
the ingest handler for local bus deltas, the reporting-cycle filter and
eviction pass, and the cloud nearby-vessels merge.

Modelling conventions:
* The JS Map `vesselData` is an association list with unique keys in
  insertion order; the JS Set `cloudVessels` is a duplicate-free list in
  insertion order.
* Timestamps are epoch milliseconds as `Int`. ISO-8601 timestamp strings
  that the source converts with `new Date(...).getTime()` are modelled
  directly by their millisecond value.
* Field values are semantically opaque to the registry except for the
  JSON.stringify equality test; they are modelled by the inductive `JVal`
  with decidable equality. The floating-point unit conversions applied to
  cloud navigation numbers (degrees to radians, knots to m/s) are IEEE
  double computations and are kept symbolic (`jDegToRad`, `jKnotsToMs`);
  no claim depends on the numeric result, only on field presence.
* JSON numeric payloads are carried at integer precision; no claim
  depends on fractional values.
-/

set_option autoImplicit false

namespace AisFleet

/-- JSON-like field payload. `jNull` is JS `null`. The structured payloads
built by the cloud conversion (`{latitude, longitude}`, `{overall}`,
`{maximum}`) and the symbolic unit conversions get their own constructors. -/
inductive JVal where
  | jNull
  | jStr (s : String)
  | jNum (n : Int)
  | jPos (latitude longitude : Int)
  | jLengthOverall (overall : Int)
  | jDraftMaximum (maximum : Int)
  | jDegToRad (degrees : Int)
  | jKnotsToMs (knots : Int)
deriving DecidableEq, Repr

/-- A stored field: `vessel.data[path] = { value, source, timestamp }`.
The source label is modelled as an opaque optional string. -/
structure FieldValue where
  value : JVal
  source : Option String
  timestamp : Int
deriving DecidableEq, Repr

/-- One registry record (`vesselData.get(id)`); `isCloudVessel` is the flag
set by the cloud merge (absent on locally created records, modelled false). -/
structure VesselRecord where
  id : String
  context : String
  lastUpdate : Int
  data : List (String × FieldValue)
  isCloudVessel : Bool
deriving DecidableEq, Repr

/-- The module state shared by all cycles: the `vesselData` Map and the
`cloudVessels` Set. -/
structure PluginState where
  vesselData : List (String × VesselRecord)
  cloudVessels : List String
deriving DecidableEq, Repr

/-- Map lookup on the association-list model (first matching key). -/
def lookupKey {α : Type} (l : List (String × α)) (k : String) : Option α :=
  match l with
  | [] => none
  | (k', v) :: rest => if k' = k then some v else lookupKey rest k

/-- Map set: replace the entry for `k` in place, or append a new entry. -/
def setKey {α : Type} (l : List (String × α)) (k : String) (v : α) :
    List (String × α) :=
  match l with
  | [] => [(k, v)]
  | (k', v') :: rest =>
    if k' = k then (k, v) :: rest else (k', v') :: setKey rest k v

/-- Map delete (removes every entry with key `k`; on the unique-key lists
that model a JS Map this is the single-entry delete). -/
def eraseKey {α : Type} (l : List (String × α)) (k : String) :
    List (String × α) :=
  match l with
  | [] => []
  | (k', v) :: rest =>
    if k' = k then eraseKey rest k else (k', v) :: eraseKey rest k

/-- Set add: append if absent. -/
def addSet (s : List String) (x : String) : List String :=
  if s.contains x then s else s ++ [x]

/-- Set delete. -/
def eraseSet (s : List String) (x : String) : List String :=
  match s with
  | [] => []
  | y :: rest => if y = x then eraseSet rest x else y :: eraseSet rest x

/-- The registry invariant every reachable state satisfies: each record is
stored under its own id, and Map keys are unique. -/
def goodRegistry (st : PluginState) : Prop :=
  (∀ p ∈ st.vesselData, p.2.id = p.1) ∧ (st.vesselData.map Prod.fst).Nodup

instance : DecidablePred goodRegistry := fun st => by
  unfold goodRegistry; infer_instance

/-! ## Ingest (handleVesselUpdate) -/

/-- One path/value pair of a bus delta update. `value = none` models the JS
`undefined` that the handler rejects; JS `null` is `some .jNull`. -/
structure PathValue where
  path : String
  value : Option JVal
deriving DecidableEq, Repr

/-- One update of a bus delta: source label, optional timestamp, optional
values array (`update.values` may be absent). -/
structure BusUpdate where
  source : Option String
  timestamp : Option Int
  values : Option (List PathValue)
deriving DecidableEq, Repr

/-- A bus delta event: optional context and optional updates array. -/
structure Delta where
  context : Option String
  updates : Option (List BusUpdate)
deriving DecidableEq, Repr

/-- The context regex `^vessels\.(.+)$`: requires the prefix, a non-empty
remainder, and (since `.` in a JS regex matches no line terminator and `$`
anchors at end of input) a remainder free of newline characters.
(U+2028/U+2029 line separators are not modelled.) -/
def contextMatch (s : String) : Option String :=
  if ("vessels.".toList).isPrefixOf s.toList then
    let rest : String := ⟨s.toList.drop 8⟩
    if rest ≠ "" ∧ rest.toList.all (fun c => c ≠ '\n' ∧ c ≠ '\r') then
      some rest
    else none
  else none

/-- `needle` occurs as a contiguous subsequence of `haystack` (the model of
JS `String.prototype.includes`). -/
def listContainsSeq (needle : List Char) : List Char → Bool
  | [] => needle.isEmpty
  | c :: rest => needle.isPrefixOf (c :: rest) || listContainsSeq needle rest

/-- The invalid-identifier test used by both the ingest handler and the
reporting filter: `!id || id === 'undefined' || id === 'null' ||
id.includes('undefined')`. -/
def invalidVesselId (id : String) : Bool :=
  id = "" || id = "undefined" || id = "null" ||
    listContainsSeq ("undefined".toList) id.toList

/-- Millisecond thresholds from the source. -/
def maxAgeMs : Int := 24 * 60 * 60 * 1000

def throttleMs : Int := 2000

def twoMinutesMs : Int := 2 * 60 * 1000

/-- The per-vessel throttle test: `vessel.lastUpdate && (currentTime -
vessel.lastUpdate) < 2000`, where a missing vessel has `lastUpdate = 0`
(falsy). -/
def ingestThrottled (st : PluginState) (vesselId : String)
    (currentTime : Int) : Bool :=
  match lookupKey st.vesselData vesselId with
  | none => false
  | some v => v.lastUpdate != 0 && currentTime - v.lastUpdate < throttleMs

/-- Processing of one path/value pair inside the update loop: skipped when
the path is falsy or the value is `undefined`; otherwise written (with the
update's timestamp, falling back to processing time) exactly when the
stored value is not JSON-stringify-equal to the incoming one. Returns the
updated record and increments the update counter on a write. -/
def applyPathValue (u : BusUpdate) (currentTime : Int)
    (acc : VesselRecord × Nat) (pv : PathValue) : VesselRecord × Nat :=
  match pv.value with
  | none => acc
  | some newVal =>
    if pv.path = "" then acc
    else
      let (ves, c) := acc
      let write : Bool :=
        match lookupKey ves.data pv.path with
        | none => true
        | some cur => cur.value ≠ newVal
      if write then
        ({ ves with
            data := setKey ves.data pv.path
              ⟨newVal, u.source, u.timestamp.getD currentTime⟩ }, c + 1)
      else acc

/-- Processing of one update of the delta (skips updates with no values
array). -/
def applyBusUpdate (currentTime : Int) (acc : VesselRecord × Nat)
    (u : BusUpdate) : VesselRecord × Nat :=
  match u.values with
  | none => acc
  | some vs => vs.foldl (applyPathValue u currentTime) acc

/-- The record a fresh vessel ingest starts from. -/
def freshRecord (vesselId ctx : String) : VesselRecord :=
  { id := vesselId, context := ctx, lastUpdate := 0, data := [],
    isCloudVessel := false }

/-- The existing record for the id, or a fresh one. -/
def ingestBase (st : PluginState) (vesselId ctx : String) : VesselRecord :=
  (lookupKey st.vesselData vesselId).getD (freshRecord vesselId ctx)

/-- The body of an accepted ingest: stamp the processing time on the
record, then fold the update list, counting field writes. -/
def ingestResult (st : PluginState) (vesselId ctx : String)
    (updates : List BusUpdate) (currentTime : Int) : VesselRecord × Nat :=
  updates.foldl (applyBusUpdate currentTime)
    ({ ingestBase st vesselId ctx with lastUpdate := currentTime }, 0)

/-- `handleVesselUpdate(delta)` with the processing time `Date.now()` passed
explicitly. Returns the new state and the `updateCount` of fields written.
The source mutates the record in place; here the final record is written
back under its id. A freshly created record enters the Map even when no
field of the event survives the checks. -/
def handleVesselUpdate (st : PluginState) (delta : Delta)
    (currentTime : Int) : PluginState × Nat :=
  match delta.context, delta.updates with
  | some ctx, some updates =>
    match contextMatch ctx with
    | none => (st, 0)
    | some vesselId =>
      if invalidVesselId vesselId then (st, 0)
      else if ingestThrottled st vesselId currentTime then (st, 0)
      else
        let result := ingestResult st vesselId ctx updates currentTime
        ({ st with vesselData := setKey st.vesselData vesselId result.1 },
          result.2)
  | _, _ => (st, 0)

/-! ## Reporting cycle (submitVesselData): eviction, filtering and the
outbound active-vessel list. The batched HTTP submission that follows has
no effect on the registry state and is outside the state model. -/

/-- One step of the `activeVessels` filter, which deletes over-age and
invalid-id records from both the Map and the Set as a side effect while
iterating the snapshot of records. -/
def submitStep (now : Int) (acc : PluginState × List VesselRecord)
    (v : VesselRecord) : PluginState × List VesselRecord :=
  let (st, actives) := acc
  if now - v.lastUpdate > maxAgeMs then
    ({ vesselData := eraseKey st.vesselData v.id,
       cloudVessels := eraseSet st.cloudVessels v.id }, actives)
  else if invalidVesselId v.id then
    ({ vesselData := eraseKey st.vesselData v.id,
       cloudVessels := eraseSet st.cloudVessels v.id }, actives)
  else if v.data.isEmpty then (st, actives)
  else if st.cloudVessels.contains v.id || v.isCloudVessel then
    (st, actives)
  else (st, actives ++ [v])

/-- The state-relevant part of one reporting cycle: the filter pass over
`Array.from(vesselData.values())`, returning the new state and the
outbound `activeVessels` list. -/
def submitVesselData (st : PluginState) (now : Int) :
    PluginState × List VesselRecord :=
  (st.vesselData.map Prod.snd).foldl (submitStep now) (st, [])

/-! ## Cloud sync (fetchNearbyVessels / processCloudVessels /
sendVesselData) -/

/-- The `last_position` sub-record of a cloud vessel. -/
structure LastPosition where
  latitude : Int
  longitude : Int
  timestamp : Option Int
deriving DecidableEq, Repr

/-- The `latest_navigation` sub-record of a cloud vessel. -/
structure LatestNavigation where
  course_over_ground : Option Int
  speed_over_ground : Option Int
  heading : Option Int
  rate_of_turn : Option Int
  navigation_status : Option String
  timestamp : Option Int
deriving DecidableEq, Repr

/-- One foreign vessel record returned by the nearby-vessels endpoint.
`none` models an absent / null JSON field. -/
structure CloudVessel where
  mmsi : Option String
  name : Option String
  call_sign : Option String
  imo_number : Option String
  design_length : Option Int
  design_beam : Option Int
  design_draft : Option Int
  last_position : Option LastPosition
  latest_navigation : Option LatestNavigation
deriving DecidableEq, Repr

/-- JS truthiness on an optional string (the empty string is falsy). -/
def truthyStr (o : Option String) : Option String :=
  o.bind (fun s => if s = "" then none else some s)

/-- JS truthiness on an optional number (zero is falsy). -/
def truthyNum (o : Option Int) : Option Int :=
  o.bind (fun n => if n = 0 then none else some n)

/-- The derived identifier of a cloud vessel. -/
def mkVesselId (mmsi : String) : String := "urn:mrn:imo:mmsi:" ++ mmsi

def mkContext (mmsi : String) : String := "vessels." ++ mkVesselId mmsi

/-- `cloudPosTime || cloudNavTime || now`: the incoming record's derived
timestamp, from its position sub-record, else its navigation sub-record,
else the processing time. Computed identically at the freshness comparison
and at record construction in the source. -/
def cloudDerivedTs (cv : CloudVessel) (now : Int) : Int :=
  (((cv.last_position.bind (·.timestamp)).orElse
    (fun _ => cv.latest_navigation.bind (·.timestamp))).getD now)

def cloudSource : Option String := some "aisfleet-cloud"

/-- The record built for an accepted cloud vessel, in source field order.
Static fields are stamped with the processing time (`new
Date().toISOString()`); position and navigation fields with their
sub-record timestamp when present. -/
def buildCloudRecord (cv : CloudVessel) (vesselId context : String)
    (actualTs now : Int) : VesselRecord :=
  let nameF := match truthyStr cv.name with
    | some s => [("name", FieldValue.mk (.jStr s) cloudSource now)]
    | none => []
  let callF := match truthyStr cv.call_sign with
    | some s =>
      [("communication.callsignVhf", FieldValue.mk (.jStr s) cloudSource now)]
    | none => []
  let imoF := match truthyStr cv.imo_number with
    | some s => [("registrations.imo", FieldValue.mk (.jStr s) cloudSource now)]
    | none => []
  let lenF := match truthyNum cv.design_length with
    | some n =>
      [("design.length", FieldValue.mk (.jLengthOverall n) cloudSource now)]
    | none => []
  let beamF := match truthyNum cv.design_beam with
    | some n => [("design.beam", FieldValue.mk (.jNum n) cloudSource now)]
    | none => []
  let draftF := match truthyNum cv.design_draft with
    | some n =>
      [("design.draft", FieldValue.mk (.jDraftMaximum n) cloudSource now)]
    | none => []
  let posF := match cv.last_position with
    | some lp =>
      [("navigation.position",
        FieldValue.mk (.jPos lp.latitude lp.longitude) cloudSource
          (lp.timestamp.getD now))]
    | none => []
  let navF := match cv.latest_navigation with
    | some nav =>
      let navTs := nav.timestamp.getD now
      (match nav.course_over_ground with
        | some c =>
          [("navigation.courseOverGroundTrue",
            FieldValue.mk (.jDegToRad c) cloudSource navTs)]
        | none => []) ++
      (match nav.speed_over_ground with
        | some s =>
          [("navigation.speedOverGround",
            FieldValue.mk (.jKnotsToMs s) cloudSource navTs)]
        | none => []) ++
      (match nav.heading with
        | some h =>
          [("navigation.headingTrue",
            FieldValue.mk (.jDegToRad h) cloudSource navTs)]
        | none => []) ++
      (match nav.rate_of_turn with
        | some r =>
          [("navigation.rateOfTurn",
            FieldValue.mk (.jDegToRad r) cloudSource navTs)]
        | none => []) ++
      (match nav.navigation_status with
        | some s =>
          [("navigation.state", FieldValue.mk (.jStr s) cloudSource navTs)]
        | none => [])
    | none => []
  { id := vesselId, context := context, lastUpdate := actualTs,
    data := nameF ++ callF ++ imoF ++ lenF ++ beamF ++ draftF ++ posF ++ navF,
    isCloudVessel := true }

/-- The accept path of the merge: mark the id in the cloud set, build the
record, store it, and hand it to `sendVesselData`. (The source's redundant
second assignment of `lastUpdate` for pre-existing ids writes the value the
record already carries.) Returns the record sent to the bus. -/
def acceptCloud (st : PluginState) (cv : CloudVessel)
    (vesselId context : String) (now : Int) :
    PluginState × Option VesselRecord :=
  let r := buildCloudRecord cv vesselId context (cloudDerivedTs cv now) now
  ({ vesselData := setKey st.vesselData vesselId r,
     cloudVessels := addSet st.cloudVessels vesselId }, some r)

/-- The merge of one returned cloud vessel: identifier validity, then the
precedence rule (local record wins unconditionally; cloud-tagged record is
replaced when its lastUpdate is under two minutes old or the incoming
derived timestamp is strictly newer). The second component is the record
re-injected onto the bus, `none` when the vessel was skipped. -/
def processOneCloudVessel (st : PluginState) (cv : CloudVessel)
    (now : Int) : PluginState × Option VesselRecord :=
  match cv.mmsi with
  | none => (st, none)
  | some m =>
    if m = "undefined" || m = "null" || m = "" then (st, none)
    else
      let vesselId := mkVesselId m
      match lookupKey st.vesselData vesselId with
      | some existing =>
        if !(existing.isCloudVessel || st.cloudVessels.contains vesselId) then
          (st, none)
        else if now - existing.lastUpdate < twoMinutesMs then
          acceptCloud st cv vesselId (mkContext m) now
        else if cloudDerivedTs cv now ≤ existing.lastUpdate then (st, none)
        else acceptCloud st cv vesselId (mkContext m) now
      | none => acceptCloud st cv vesselId (mkContext m) now

/-- One `processCloudVessels` pass over the returned list (the per-vessel
bus re-injections and the 100 ms pacing pause have no registry effect). -/
def processCloudVessels (st : PluginState) (list : List CloudVessel)
    (now : Int) : PluginState :=
  list.foldl (fun s cv => (processOneCloudVessel s cv now).1) st

/-- The registry effect of one full Cloud Sync cycle
(`fetchNearbyVessels`): aborted without state change when the own position
or both self-identifiers are missing or the request fails or the response
carries no vessels array; otherwise the merge pass. -/
def fetchNearbyVesselsCycle (hasPosition hasSelfId : Bool)
    (response : Option (List CloudVessel)) (st : PluginState)
    (now : Int) : PluginState :=
  if !hasPosition then st
  else if !hasSelfId then st
  else match response with
    | none => st
    | some vessels => processCloudVessels st vessels now

/-- The whitelist of paths `sendVesselData` re-injects. -/
def safeSignalKPaths : List String :=
  ["navigation.position", "navigation.speedOverGround",
   "navigation.courseOverGroundTrue", "navigation.headingTrue",
   "navigation.rateOfTurn", "mmsi"]

/-- The path/value pairs of the delta `sendVesselData` re-injects onto the
bus for one vessel: stored fields (always objects carrying a value in this
model) whose path is whitelisted and whose value is neither null nor
undefined, in stored order. -/
def sendVesselDelta (vessel : VesselRecord) : List (String × JVal) :=
  vessel.data.foldl (fun acc pd =>
    if safeSignalKPaths.contains pd.1 then
      if pd.2.value ≠ JVal.jNull then acc ++ [(pd.1, pd.2.value)] else acc
    else acc) []

/-- States reachable from the empty registry by ingest and cloud-merge
operations. -/
inductive Reachable : PluginState → Prop where
  | init : Reachable { vesselData := [], cloudVessels := [] }
  | ingest (st : PluginState) (d : Delta) (t : Int) :
      Reachable st → Reachable (handleVesselUpdate st d t).1
  | cloud (st : PluginState) (l : List CloudVessel) (t : Int) :
      Reachable st → Reachable (processCloudVessels st l t)

/-! ## Association-list and set lemmas -/

theorem lookupKey_setKey {α : Type} (l : List (String × α)) (k id : String)
    (v : α) :
    lookupKey (setKey l k v) id = if id = k then some v else lookupKey l id := by
  induction l with
  | nil =>
    by_cases h : id = k
    · subst h; simp [setKey, lookupKey]
    · simp [setKey, lookupKey, h, Ne.symm h]
  | cons hd tl ih =>
    obtain ⟨k', v'⟩ := hd
    by_cases h1 : k' = k
    · subst h1
      by_cases h2 : id = k'
      · subst h2; simp [setKey, lookupKey]
      · simp [setKey, lookupKey, h2, Ne.symm h2]
    · by_cases h2 : id = k'
      · subst h2
        simp [setKey, lookupKey, h1]
      · simp [setKey, lookupKey, h1, h2, Ne.symm h2, ih]

theorem lookupKey_eraseKey {α : Type} (l : List (String × α)) (k id : String) :
    lookupKey (eraseKey l k) id = if id = k then none else lookupKey l id := by
  induction l with
  | nil => simp [eraseKey, lookupKey]
  | cons hd tl ih =>
    obtain ⟨k', v'⟩ := hd
    by_cases h1 : k' = k
    · subst h1
      by_cases h2 : id = k'
      · subst h2; simp [eraseKey, lookupKey, ih]
      · simp [eraseKey, lookupKey, h2, Ne.symm h2, ih]
    · by_cases h2 : id = k'
      · subst h2
        simp [eraseKey, lookupKey, h1, Ne.symm h1]
      · simp [eraseKey, lookupKey, h1, h2, Ne.symm h2, ih]

theorem mem_of_lookupKey {α : Type} {l : List (String × α)} {k : String}
    {v : α} (h : lookupKey l k = some v) : (k, v) ∈ l := by
  induction l with
  | nil => simp [lookupKey] at h
  | cons hd tl ih =>
    obtain ⟨k', v'⟩ := hd
    by_cases h1 : k' = k
    · subst h1
      simp [lookupKey] at h
      subst h
      exact List.mem_cons_self _ _
    · simp [lookupKey, h1] at h
      exact List.mem_cons_of_mem _ (ih h)

theorem lookupKey_isSome_iff {α : Type} (l : List (String × α)) (k : String) :
    (lookupKey l k).isSome = true ↔ ∃ v, (k, v) ∈ l := by
  induction l with
  | nil => simp [lookupKey]
  | cons hd tl ih =>
    obtain ⟨k', v'⟩ := hd
    by_cases h1 : k' = k
    · subst h1
      simp [lookupKey]
    · simp [lookupKey, h1, ih]
      constructor
      · rintro ⟨v, hv⟩; exact ⟨v, Or.inr hv⟩
      · rintro ⟨v, hv | hv⟩
        · exact absurd hv.1.symm h1
        · exact ⟨v, hv⟩

theorem mem_setKey {α : Type} {l : List (String × α)} {k : String} {v : α}
    {p : String × α} (h : p ∈ setKey l k v) : p = (k, v) ∨ p ∈ l := by
  induction l with
  | nil => simpa [setKey] using h
  | cons hd tl ih =>
    obtain ⟨k', v'⟩ := hd
    by_cases h1 : k' = k
    · simp [setKey, h1] at h
      rcases h with h | h
      · exact Or.inl h
      · exact Or.inr (List.mem_cons_of_mem _ h)
    · simp [setKey, h1] at h
      rcases h with h | h
      · exact Or.inr (by simp [h])
      · rcases ih h with h' | h'
        · exact Or.inl h'
        · exact Or.inr (List.mem_cons_of_mem _ h')

theorem lookupKey_unique {α : Type} {l : List (String × α)} {k : String}
    {v : α} (hnd : (l.map Prod.fst).Nodup) (hv : lookupKey l k = some v) :
    ∀ p ∈ l, p.1 = k → p.2 = v := by
  induction l with
  | nil => simp
  | cons hd tl ih =>
    obtain ⟨k', v'⟩ := hd
    simp only [List.map_cons, List.nodup_cons] at hnd
    intro p hp hk
    rcases List.mem_cons.mp hp with rfl | hp'
    · have hk' : k' = k := hk
      subst hk'
      simp [lookupKey] at hv
      simpa using hv
    · by_cases h1 : k' = k
      · subst h1
        exact absurd (by simpa [hk] using List.mem_map_of_mem Prod.fst hp')
          hnd.1
      · simp only [lookupKey, if_neg h1] at hv
        exact ih hnd.2 hv p hp' hk

theorem mem_addSet (s : List String) (x y : String) :
    y ∈ addSet s x ↔ y ∈ s ∨ y = x := by
  by_cases hx : x ∈ s
  · by_cases hy : y = x
    · subst hy; simp [addSet, hx]
    · simp [addSet, hx, hy]
  · simp [addSet, hx, List.mem_append]

theorem mem_eraseSet (s : List String) (x y : String) :
    y ∈ eraseSet s x ↔ y ∈ s ∧ y ≠ x := by
  induction s with
  | nil => simp [eraseSet]
  | cons z rest ih =>
    by_cases h1 : z = x
    · subst h1
      simp only [eraseSet, if_pos rfl, ih, List.mem_cons]
      tauto
    · simp only [eraseSet, if_neg h1, List.mem_cons, ih]
      by_cases h2 : y = z
      · subst h2; tauto
      · tauto

/-! ## Structural lemmas about the cloud merge -/

/-- Case analysis of one cloud-vessel merge step: either the state is left
untouched, or the vessel has a usable mmsi and the accept path runs, which
happens only when no record exists under the derived id or the existing
record is cloud-tagged. -/
theorem processOne_shape (st : PluginState) (cv : CloudVessel) (now : Int) :
    processOneCloudVessel st cv now = (st, none) ∨
    ∃ m, cv.mmsi = some m ∧
      (m = "undefined" || m = "null" || m = "") = false ∧
      processOneCloudVessel st cv now =
        acceptCloud st cv (mkVesselId m) (mkContext m) now ∧
      (lookupKey st.vesselData (mkVesselId m) = none ∨
        ∃ ex, lookupKey st.vesselData (mkVesselId m) = some ex ∧
          (ex.isCloudVessel || st.cloudVessels.contains (mkVesselId m)) = true) := by
  cases hm : cv.mmsi with
  | none => left; simp [processOneCloudVessel, hm]
  | some m =>
    by_cases hinv : (m = "undefined" || m = "null" || m = "") = true
    · left; simp [processOneCloudVessel, hm, hinv]
    · replace hinv : (m = "undefined" || m = "null" || m = "") = false := by
        simpa using hinv
      cases hl : lookupKey st.vesselData (mkVesselId m) with
      | none =>
        right
        exact ⟨m, rfl, hinv,
          by simp [processOneCloudVessel, hm, hinv, hl], Or.inl hl⟩
      | some ex =>
        by_cases hcp : ex.isCloudVessel = true ∨ mkVesselId m ∈ st.cloudVessels
        · have hc : (ex.isCloudVessel ||
              st.cloudVessels.contains (mkVesselId m)) = true := by
            rcases hcp with h | h <;> simp [h]
          by_cases h2 : now - ex.lastUpdate < twoMinutesMs
          · right
            refine ⟨m, rfl, hinv, ?_, Or.inr ⟨ex, hl, hc⟩⟩
            rcases hcp with h | h <;>
              simp [processOneCloudVessel, hm, hinv, hl, h2, h]
          · by_cases h3 : cloudDerivedTs cv now ≤ ex.lastUpdate
            · left
              rcases hcp with h | h <;>
                simp [processOneCloudVessel, hm, hinv, hl, h2, h3, h]
            · right
              refine ⟨m, rfl, hinv, ?_, Or.inr ⟨ex, hl, hc⟩⟩
              rcases hcp with h | h <;>
                simp [processOneCloudVessel, hm, hinv, hl, h2, h3, h]
        · left
          push_neg at hcp
          have hflag : ex.isCloudVessel = false := by
            simpa using hcp.1
          simp [processOneCloudVessel, hm, hinv, hl, hflag, hcp.2]

/-- A record stored under an id the merge step does not key, and the
cloud-set status of that id, survive the step; and so does a record with
local provenance stored under the very id the step keys (local wins). -/
theorem processOne_local_preserved (st : PluginState) (cv : CloudVessel)
    (now : Int) (id : String) (v : VesselRecord)
    (hv : lookupKey st.vesselData id = some v)
    (hflag : v.isCloudVessel = false)
    (hset : id ∉ st.cloudVessels) :
    lookupKey (processOneCloudVessel st cv now).1.vesselData id = some v ∧
      id ∉ (processOneCloudVessel st cv now).1.cloudVessels := by
  rcases processOne_shape st cv now with h | ⟨m, hm, hinv, hacc, hex⟩
  · rw [h]; exact ⟨hv, hset⟩
  · by_cases hid : mkVesselId m = id
    · subst hid
      rcases hex with hnone | ⟨ex, hexl, hc⟩
      · rw [hv] at hnone; cases hnone
      · rw [hv] at hexl
        injection hexl with h'
        subst h'
        rw [hflag] at hc
        simp at hc
        exact absurd hc hset
    · rw [hacc]
      refine ⟨?_, ?_⟩
      · simp [acceptCloud, lookupKey_setKey, Ne.symm hid, hv]
      · simp [acceptCloud, mem_addSet, hset, Ne.symm hid]

/-- Behaviour of one cloud-vessel merge step on an id whose existing
record is cloud-tagged: the incoming record is accepted exactly when the
existing lastUpdate is under two minutes old or the incoming derived
timestamp is strictly newer; otherwise the step is a no-op. -/
theorem processOne_existing_cloud (st : PluginState) (cv : CloudVessel)
    (now : Int) (m : String) (existing : VesselRecord)
    (hm : cv.mmsi = some m)
    (hinv : (m = "undefined" || m = "null" || m = "") = false)
    (hex : lookupKey st.vesselData (mkVesselId m) = some existing)
    (hcloud : existing.isCloudVessel = true ∨ mkVesselId m ∈ st.cloudVessels) :
    (now - existing.lastUpdate < twoMinutesMs ∨
        existing.lastUpdate < cloudDerivedTs cv now →
      processOneCloudVessel st cv now =
        acceptCloud st cv (mkVesselId m) (mkContext m) now) ∧
    (¬(now - existing.lastUpdate < twoMinutesMs ∨
        existing.lastUpdate < cloudDerivedTs cv now) →
      processOneCloudVessel st cv now = (st, none)) := by
  simp only [Bool.or_eq_false_iff, decide_eq_false_iff_not] at hinv
  obtain ⟨⟨hi1, hi2⟩, hi3⟩ := hinv
  constructor
  · intro hacc
    by_cases h2 : now - existing.lastUpdate < twoMinutesMs
    · rcases hcloud with h | h <;>
        simp [processOneCloudVessel, hm, hi1, hi2, hi3, hex, h2, h]
    · have h3 : ¬(cloudDerivedTs cv now ≤ existing.lastUpdate) := by
        rcases hacc with h | h
        · exact absurd h h2
        · omega
      rcases hcloud with h | h <;>
        simp [processOneCloudVessel, hm, hi1, hi2, hi3, hex, h2, h3, h]
  · intro hskip
    push_neg at hskip
    have h2 : ¬(now - existing.lastUpdate < twoMinutesMs) := by
      have := hskip.1; omega
    have h3 : cloudDerivedTs cv now ≤ existing.lastUpdate := by
      have := hskip.2; omega
    rcases hcloud with h | h <;>
      simp [processOneCloudVessel, hm, hi1, hi2, hi3, hex, h2, h3, h]

/-- Claim C1: during a cloud-merge cycle, an identifier that already holds
a record of local provenance (cloud flag unset and id not in the
cloud-provenance set) keeps that record, all fields unchanged, whatever the
incoming records and timestamps are, and stays untagged. -/
theorem cloudMerge_localWins (st : PluginState) (list : List CloudVessel)
    (now : Int) (id : String) (v : VesselRecord)
    (hv : lookupKey st.vesselData id = some v)
    (hflag : v.isCloudVessel = false)
    (hset : id ∉ st.cloudVessels) :
    lookupKey (processCloudVessels st list now).vesselData id = some v ∧
      id ∉ (processCloudVessels st list now).cloudVessels := by
  induction list generalizing st with
  | nil => exact ⟨hv, hset⟩
  | cons cv rest ih =>
    have step := processOne_local_preserved st cv now id v hv hflag hset
    exact ih (processOneCloudVessel st cv now).1 step.1 step.2

/-- Local record with speed 1 for mmsi 222, as ingested locally. -/
def localRec222 : VesselRecord :=
  { id := "urn:mrn:imo:mmsi:222", context := "vessels.urn:mrn:imo:mmsi:222",
    lastUpdate := 1000,
    data := [("navigation.speedOverGround",
      FieldValue.mk (.jNum 1) (some "ais") 1000)],
    isCloudVessel := false }

def stLocal222 : PluginState :=
  { vesselData := [("urn:mrn:imo:mmsi:222", localRec222)], cloudVessels := [] }

/-- Cloud record for the same mmsi carrying a different speed and a much
newer timestamp. -/
def cvCloud222 : CloudVessel :=
  { mmsi := some "222", name := none, call_sign := none, imo_number := none,
    design_length := none, design_beam := none, design_draft := none,
    last_position := some (LastPosition.mk 5 6 (some 999999999)),
    latest_navigation :=
      some (LatestNavigation.mk none (some 2) none none none
        (some 999999999)) }

/-- Witness for claim C1 at a concrete state: the locally ingested speed
survives a cloud merge that returns the same vessel with a newer
timestamp. -/
theorem cloudMerge_localWins_witness :
    lookupKey stLocal222.vesselData "urn:mrn:imo:mmsi:222" = some localRec222 ∧
    localRec222.isCloudVessel = false ∧
    "urn:mrn:imo:mmsi:222" ∉ stLocal222.cloudVessels ∧
    (lookupKey (processCloudVessels stLocal222 [cvCloud222]
        1000000000).vesselData "urn:mrn:imo:mmsi:222" = some localRec222 ∧
      "urn:mrn:imo:mmsi:222" ∉
        (processCloudVessels stLocal222 [cvCloud222] 1000000000).cloudVessels) :=
  ⟨by decide, by decide, by decide,
    cloudMerge_localWins stLocal222 [cvCloud222] 1000000000
      "urn:mrn:imo:mmsi:222" localRec222 (by decide) (by decide) (by decide)⟩

/-- Claim C5: for a cloud merge of a vessel whose existing record is
cloud-tagged, the incoming record is accepted (the registry entry is
rebuilt and re-injected) if and only if the existing lastUpdate is less
than two minutes old or the incoming derived timestamp (position
sub-record, else navigation sub-record, else now) is strictly newer than
the existing lastUpdate; otherwise the vessel is skipped and the state is
unchanged. -/
theorem cloudMerge_freshness (st : PluginState) (cv : CloudVessel)
    (now : Int) (m : String) (existing : VesselRecord)
    (hm : cv.mmsi = some m)
    (hinv : (m = "undefined" || m = "null" || m = "") = false)
    (hex : lookupKey st.vesselData (mkVesselId m) = some existing)
    (hcloud : existing.isCloudVessel = true ∨ mkVesselId m ∈ st.cloudVessels) :
    (now - existing.lastUpdate < twoMinutesMs ∨
        existing.lastUpdate < cloudDerivedTs cv now →
      processOneCloudVessel st cv now =
        acceptCloud st cv (mkVesselId m) (mkContext m) now) ∧
    (¬(now - existing.lastUpdate < twoMinutesMs ∨
        existing.lastUpdate < cloudDerivedTs cv now) →
      processOneCloudVessel st cv now = (st, none)) :=
  processOne_existing_cloud st cv now m existing hm hinv hex hcloud

/-- An existing cloud-tagged record for mmsi 333, 10 minutes old at the
witness time. -/
def cloudRec333 : VesselRecord :=
  { id := "urn:mrn:imo:mmsi:333", context := "vessels.urn:mrn:imo:mmsi:333",
    lastUpdate := 600000,
    data := [("navigation.state", FieldValue.mk (.jStr "motoring")
      (some "aisfleet-cloud") 600000)],
    isCloudVessel := true }

def stCloud333 : PluginState :=
  { vesselData := [("urn:mrn:imo:mmsi:333", cloudRec333)],
    cloudVessels := ["urn:mrn:imo:mmsi:333"] }

/-- Incoming cloud vessel for mmsi 333 with only a position sub-record and
an older derived timestamp than the stored record. -/
def cvStale333 : CloudVessel :=
  { mmsi := some "333", name := none, call_sign := none, imo_number := none,
    design_length := none, design_beam := none, design_draft := none,
    last_position := some (LastPosition.mk 7 8 (some 500000)),
    latest_navigation := none }

/-- Witness for claim C5 at a concrete state: an incoming record with an
older timestamp against a 10-minute-old cloud record is skipped. -/
theorem cloudMerge_freshness_witness :
    cvStale333.mmsi = some "333" ∧
    ("333" = "undefined" || "333" = "null" || "333" = "") = false ∧
    lookupKey stCloud333.vesselData (mkVesselId "333") = some cloudRec333 ∧
    cloudRec333.isCloudVessel = true ∧
    ¬(1200000 - cloudRec333.lastUpdate < twoMinutesMs ∨
      cloudRec333.lastUpdate < cloudDerivedTs cvStale333 1200000) ∧
    processOneCloudVessel stCloud333 cvStale333 1200000 = (stCloud333, none) :=
  ⟨by decide, by decide, by decide, by decide, by decide,
    (cloudMerge_freshness stCloud333 cvStale333 1200000 "333" cloudRec333
      (by decide) (by decide) (by decide) (Or.inl (by decide))).2 (by decide)⟩

/-- Claim C6: when a cloud merge accepts an incoming vessel over an
existing record, the stored record is replaced wholesale by the freshly
built one: a path held by the old record that the incoming cloud record
does not supply is absent from the registry record afterwards. -/
theorem cloudMerge_wholesaleReplace (st : PluginState) (cv : CloudVessel)
    (now : Int) (m : String) (existing : VesselRecord) (p : String)
    (hm : cv.mmsi = some m)
    (hinv : (m = "undefined" || m = "null" || m = "") = false)
    (hex : lookupKey st.vesselData (mkVesselId m) = some existing)
    (hcloud : existing.isCloudVessel = true ∨ mkVesselId m ∈ st.cloudVessels)
    (haccept : now - existing.lastUpdate < twoMinutesMs ∨
      existing.lastUpdate < cloudDerivedTs cv now)
    (_hold : (lookupKey existing.data p).isSome = true)
    (hnotsupplied : lookupKey (buildCloudRecord cv (mkVesselId m)
      (mkContext m) (cloudDerivedTs cv now) now).data p = none) :
    ∃ r, lookupKey (processOneCloudVessel st cv now).1.vesselData
        (mkVesselId m) = some r ∧
      lookupKey r.data p = none := by
  have h := (processOne_existing_cloud st cv now m existing hm hinv hex
    hcloud).1 haccept
  refine ⟨buildCloudRecord cv (mkVesselId m) (mkContext m)
    (cloudDerivedTs cv now) now, ?_, hnotsupplied⟩
  rw [h]
  simp [acceptCloud, lookupKey_setKey]

/-- Incoming cloud vessel for mmsi 333 with only a position sub-record and
a newer derived timestamp than the stored record. -/
def cvFresh333 : CloudVessel :=
  { mmsi := some "333", name := none, call_sign := none, imo_number := none,
    design_length := none, design_beam := none, design_draft := none,
    last_position := some (LastPosition.mk 7 8 (some 700000)),
    latest_navigation := none }

/-- Witness for claim C6 at a concrete state: after an accepted merge the
old navigation.state field, which the incoming record does not supply, is
gone from the registry record. -/
theorem cloudMerge_wholesaleReplace_witness :
    (lookupKey cloudRec333.data "navigation.state").isSome = true ∧
    (∃ r, lookupKey (processOneCloudVessel stCloud333 cvFresh333
        1200000).1.vesselData (mkVesselId "333") = some r ∧
      lookupKey r.data "navigation.state" = none) :=
  ⟨by decide,
    cloudMerge_wholesaleReplace stCloud333 cvFresh333 1200000 "333"
      cloudRec333 "navigation.state" (by decide) (by decide) (by decide)
      (Or.inl (by decide)) (Or.inr (by decide)) (by decide) (by decide)⟩

/-! ## Lemmas about the reporting-cycle filter pass -/

/-- Once an id is gone from the Map, the rest of the filter pass (which
only ever deletes) cannot bring it back. -/
theorem submit_fold_none (now : Int) (id : String) :
    ∀ (pending : List VesselRecord) (acc : PluginState × List VesselRecord),
      lookupKey acc.1.vesselData id = none →
      lookupKey ((pending.foldl (submitStep now) acc).1).vesselData id =
        none := by
  intro pending
  induction pending with
  | nil => intro acc h; exact h
  | cons w rest ih =>
    intro acc h
    rw [List.foldl_cons]
    apply ih
    obtain ⟨accSt, accL⟩ := acc
    simp only [submitStep]
    split_ifs <;> simp_all [lookupKey_eraseKey]

/-- The filter pass only appends records with a non-empty field set to the
outbound list. -/
theorem submit_fold_nonempty (now : Int) :
    ∀ (pending : List VesselRecord) (acc : PluginState × List VesselRecord),
      (∀ u ∈ acc.2, u.data ≠ []) →
      ∀ u ∈ (pending.foldl (submitStep now) acc).2, u.data ≠ [] := by
  intro pending
  induction pending with
  | nil => intro acc h; exact h
  | cons w rest ih =>
    intro acc h
    rw [List.foldl_cons]
    apply ih
    obtain ⟨accSt, accL⟩ := acc
    simp only [submitStep]
    split_ifs with h1 h2 h3 h4
    · exact h
    · exact h
    · exact h
    · exact h
    · intro u hu
      rcases List.mem_append.mp hu with hu | hu
      · exact h u hu
      · simp only [List.mem_singleton] at hu
        subst hu
        simpa using h3

/-- A record the pass neither evicts as over-age nor as invalid keeps its
Map entry, provided no other pending record carries the same id. -/
theorem submit_fold_keep (now : Int) (id : String) (v : VesselRecord) :
    ∀ (pending : List VesselRecord) (acc : PluginState × List VesselRecord),
      (∀ w ∈ pending, w.id = id →
        ¬(now - w.lastUpdate > maxAgeMs) ∧ invalidVesselId w.id = false) →
      lookupKey acc.1.vesselData id = some v →
      lookupKey ((pending.foldl (submitStep now) acc).1).vesselData id =
        some v := by
  intro pending
  induction pending with
  | nil => intro acc _ h; exact h
  | cons w rest ih =>
    intro acc hcond h
    rw [List.foldl_cons]
    apply ih _ (fun u hu => hcond u (List.mem_cons_of_mem _ hu))
    obtain ⟨accSt, accL⟩ := acc
    by_cases hid : w.id = id
    · obtain ⟨hfresh, hval⟩ := hcond w (List.mem_cons_self _ _) hid
      simp only [submitStep]
      split_ifs <;> simp_all
    · simp only [submitStep]
      split_ifs <;> simp_all [lookupKey_eraseKey, Ne.symm hid]

/-- Every record the filter pass adds to the outbound list was unmarked in
the original cloud-provenance set and carries no cloud flag, provided the
pending ids are unique and the accumulator's set agrees with the original
on all pending ids. -/
theorem submit_fold_not_cloud (now : Int) (origSet : List String) :
    ∀ (pending : List VesselRecord) (acc : PluginState × List VesselRecord),
      (pending.map VesselRecord.id).Nodup →
      (∀ x ∈ pending.map VesselRecord.id,
        (x ∈ acc.1.cloudVessels ↔ x ∈ origSet)) →
      (∀ v ∈ acc.2, v.isCloudVessel = false ∧ v.id ∉ origSet) →
      ∀ v ∈ (pending.foldl (submitStep now) acc).2,
        v.isCloudVessel = false ∧ v.id ∉ origSet := by
  intro pending
  induction pending with
  | nil => intro acc _ _ h; exact h
  | cons w rest ih =>
    intro acc hnd hcorr hacc
    rw [List.foldl_cons]
    simp only [List.map_cons, List.nodup_cons] at hnd
    apply ih _ hnd.2
    · intro x hx
      have hxw : x ≠ w.id := fun hxe => hnd.1 (hxe ▸ hx)
      have hx' := hcorr x (List.mem_cons_of_mem _ hx)
      obtain ⟨accSt, accL⟩ := acc
      simp only [submitStep]
      split_ifs <;> simp [mem_eraseSet, hxw, hx']
    · intro v hv
      obtain ⟨accSt, accL⟩ := acc
      have hcw := hcorr w.id (List.mem_cons_self _ _)
      simp only [submitStep] at hv
      split_ifs at hv with h1 h2 h3 h4
      · exact hacc v hv
      · exact hacc v hv
      · exact hacc v hv
      · exact hacc v hv
      · rcases List.mem_append.mp hv with hv | hv
        · exact hacc v hv
        · simp only [List.mem_singleton] at hv
          subst hv
          simp only [Bool.or_eq_true, not_or] at h4
          push_neg at h4
          refine ⟨by simpa using h4.2, fun hmem => h4.1 ?_⟩
          simp [hcw.mpr hmem]

/-- Claim C2: in a Reporting Engine cycle, every record of the outbound
vessel list is unmarked: it is not in the cloud-provenance set the cycle
started from and does not carry the cloud flag, so every marked record is
excluded from submission. -/
theorem reporting_excludes_cloud (st : PluginState) (now : Int)
    (hgood : goodRegistry st) :
    ∀ v ∈ (submitVesselData st now).2,
      v.isCloudVessel = false ∧ v.id ∉ st.cloudVessels := by
  have hids : (st.vesselData.map Prod.snd).map VesselRecord.id =
      st.vesselData.map Prod.fst := by
    rw [List.map_map]
    exact List.map_congr_left (fun p hp => hgood.1 p hp)
  intro v hv
  simp only [submitVesselData] at hv
  exact submit_fold_not_cloud now st.cloudVessels _ _
    (by rw [hids]; exact hgood.2) (fun x _ => Iff.rfl) (by simp) v hv

/-- A cloud-tagged record and a local record side by side, for the C2
witness. -/
def cloudRec666 : VesselRecord :=
  { id := "urn:mrn:imo:mmsi:666", context := "vessels.urn:mrn:imo:mmsi:666",
    lastUpdate := 1000,
    data := [("navigation.position",
      FieldValue.mk (.jPos 1 2) (some "aisfleet-cloud") 1000)],
    isCloudVessel := true }

def localRec777 : VesselRecord :=
  { id := "urn:mrn:imo:mmsi:777", context := "vessels.urn:mrn:imo:mmsi:777",
    lastUpdate := 1000,
    data := [("navigation.position",
      FieldValue.mk (.jPos 3 4) (some "ais") 1000)],
    isCloudVessel := false }

def stReport : PluginState :=
  { vesselData := [("urn:mrn:imo:mmsi:666", cloudRec666),
      ("urn:mrn:imo:mmsi:777", localRec777)],
    cloudVessels := ["urn:mrn:imo:mmsi:666"] }

/-- Witness for claim C2 at a concrete state: the only record in the
outbound list is the local one, and the theorem certifies it unmarked. -/
theorem reporting_excludes_cloud_witness :
    goodRegistry stReport ∧
    localRec777 ∈ (submitVesselData stReport 2000).2 ∧
    (localRec777.isCloudVessel = false ∧
      localRec777.id ∉ stReport.cloudVessels) :=
  ⟨by decide, by decide,
    reporting_excludes_cloud stReport 2000 (by decide) localRec777
      (by decide)⟩

/-- A record more than 24 hours stale at the times used below. -/
def staleRec444 : VesselRecord :=
  { id := "urn:mrn:imo:mmsi:444", context := "vessels.urn:mrn:imo:mmsi:444",
    lastUpdate := 0,
    data := [("name", FieldValue.mk (.jStr "Ghost") (some "ais") 0)],
    isCloudVessel := false }

def stStale : PluginState :=
  { vesselData := [("urn:mrn:imo:mmsi:444", staleRec444)],
    cloudVessels := [] }

/-- Counterexample to claim C4: a record over 24 hours stale survives a
full Cloud Sync cycle (position and self-id available, request successful,
merge pass run) — neither `fetchNearbyVessels` nor `processCloudVessels`
contains an eviction, so the Cloud Sync half of the claim is false. -/
theorem cloudCycle_no_eviction_counterexample :
    (1000000000 : Int) - staleRec444.lastUpdate > maxAgeMs ∧
    fetchNearbyVesselsCycle true true (some []) stStale 1000000000 =
      stStale ∧
    lookupKey (fetchNearbyVesselsCycle true true (some []) stStale
      1000000000).vesselData "urn:mrn:imo:mmsi:444" = some staleRec444 :=
  ⟨by decide, rfl, by decide⟩

/-- Claim C4 (amended): a record whose lastUpdate lies more than 24 hours
in the past at the start of a Reporting Engine cycle is deleted from the
Registry by that cycle; Cloud Sync cycles perform no staleness eviction. -/
theorem reporting_evicts_stale (st : PluginState) (now : Int) (id : String)
    (v : VesselRecord) (hgood : goodRegistry st)
    (hv : lookupKey st.vesselData id = some v)
    (hstale : now - v.lastUpdate > maxAgeMs) :
    lookupKey (submitVesselData st now).1.vesselData id = none := by
  have hmem : (id, v) ∈ st.vesselData := mem_of_lookupKey hv
  have hvid : v.id = id := hgood.1 (id, v) hmem
  have hm2 : v ∈ st.vesselData.map Prod.snd :=
    List.mem_map_of_mem Prod.snd hmem
  obtain ⟨l1, l2, hsplit⟩ := List.append_of_mem hm2
  simp only [submitVesselData]
  rw [hsplit, List.foldl_append, List.foldl_cons]
  apply submit_fold_none
  generalize List.foldl (submitStep now) (st, ([] : List VesselRecord)) l1
    = acc
  obtain ⟨accSt, accL⟩ := acc
  simp only [submitStep]
  rw [if_pos hstale]
  simp [lookupKey_eraseKey, hvid]

/-- Witness for claim C4's amended statement: the stale record is gone
after one reporting cycle. -/
theorem reporting_evicts_stale_witness :
    goodRegistry stStale ∧
    lookupKey stStale.vesselData "urn:mrn:imo:mmsi:444" = some staleRec444 ∧
    (1000000000 : Int) - staleRec444.lastUpdate > maxAgeMs ∧
    lookupKey (submitVesselData stStale 1000000000).1.vesselData
      "urn:mrn:imo:mmsi:444" = none :=
  ⟨by decide, by decide, by decide,
    reporting_evicts_stale stStale 1000000000 "urn:mrn:imo:mmsi:444"
      staleRec444 (by decide) (by decide) (by decide)⟩

/-- A fresh, valid-id record with an empty field set. -/
def emptyRec555 : VesselRecord :=
  { id := "urn:mrn:imo:mmsi:555", context := "vessels.urn:mrn:imo:mmsi:555",
    lastUpdate := 1000, data := [], isCloudVessel := false }

def stEmpty : PluginState :=
  { vesselData := [("urn:mrn:imo:mmsi:555", emptyRec555)],
    cloudVessels := [] }

/-- Counterexample to claim C9: a record with an empty field set is
excluded from the submission but is NOT deleted from the Registry by the
reporting cycle (the empty-data branch of the filter returns false without
a delete), unlike over-age and invalid-id records. -/
theorem reporting_empty_not_deleted_counterexample :
    emptyRec555.data = [] ∧
    (submitVesselData stEmpty 2000).2 = [] ∧
    lookupKey (submitVesselData stEmpty 2000).1.vesselData
      "urn:mrn:imo:mmsi:555" = some emptyRec555 :=
  ⟨rfl, by decide, by decide⟩

/-- Claim C9 (amended): at a Reporting Engine cycle, a record with an
empty field set (neither over-age nor invalid) is excluded from the
outbound vessel list but remains in the Registry — only over-age and
invalid-identifier records are deleted. -/
theorem reporting_skips_empty (st : PluginState) (now : Int) (id : String)
    (v : VesselRecord) (hgood : goodRegistry st)
    (hv : lookupKey st.vesselData id = some v)
    (hfresh : ¬(now - v.lastUpdate > maxAgeMs))
    (hvalid : invalidVesselId v.id = false)
    (hempty : v.data = []) :
    lookupKey (submitVesselData st now).1.vesselData id = some v ∧
      v ∉ (submitVesselData st now).2 := by
  constructor
  · simp only [submitVesselData]
    apply submit_fold_keep now id v _ _ ?_ hv
    intro w hw hwid
    obtain ⟨⟨k, w0⟩, hpmem, hw0⟩ := List.mem_map.mp hw
    simp only at hw0
    subst hw0
    have hk : k = id := by
      have h := hgood.1 (k, w0) hpmem
      simp only at h
      rw [← h, hwid]
    have hwv : w0 = v := lookupKey_unique hgood.2 hv (k, w0) hpmem hk
    subst hwv
    exact ⟨hfresh, hvalid⟩
  · intro hmem
    simp only [submitVesselData] at hmem
    exact submit_fold_nonempty now _ _ (by simp) v hmem hempty

/-- Witness for claim C9's amended statement at a concrete state. -/
theorem reporting_skips_empty_witness :
    goodRegistry stEmpty ∧
    lookupKey stEmpty.vesselData "urn:mrn:imo:mmsi:555" = some emptyRec555 ∧
    ¬((2000 : Int) - emptyRec555.lastUpdate > maxAgeMs) ∧
    invalidVesselId emptyRec555.id = false ∧
    (lookupKey (submitVesselData stEmpty 2000).1.vesselData
        "urn:mrn:imo:mmsi:555" = some emptyRec555 ∧
      emptyRec555 ∉ (submitVesselData stEmpty 2000).2) :=
  ⟨by decide, by decide, by decide, by decide,
    reporting_skips_empty stEmpty 2000 "urn:mrn:imo:mmsi:555" emptyRec555
      (by decide) (by decide) (by decide) (by decide) rfl⟩

/-! ## Lemmas about the ingest handler -/

/-- An accepted event (context parses, id valid, throttle passed) writes
back, under the id, the record obtained by stamping the processing time
and folding the update list over the existing (or fresh) record. -/
theorem handle_accepted (st : PluginState) (ctx id : String) (t : Int)
    (us : List BusUpdate)
    (hctx : contextMatch ctx = some id)
    (hvalid : invalidVesselId id = false)
    (hthr : ingestThrottled st id t = false) :
    handleVesselUpdate st ⟨some ctx, some us⟩ t =
      ({ st with
          vesselData := setKey st.vesselData id (ingestResult st id ctx us t).1 },
        (ingestResult st id ctx us t).2) := by
  simp [handleVesselUpdate, hctx, hvalid, hthr]

/-- A throttled event is discarded whole. -/
theorem handle_throttled (st : PluginState) (ctx id : String) (t : Int)
    (us : List BusUpdate)
    (hctx : contextMatch ctx = some id)
    (hvalid : invalidVesselId id = false)
    (hthr : ingestThrottled st id t = true) :
    handleVesselUpdate st ⟨some ctx, some us⟩ t = (st, 0) := by
  simp [handleVesselUpdate, hctx, hvalid, hthr]

/-- One path/value step never touches the non-data fields of the record. -/
theorem applyPathValue_fst (u : BusUpdate) (t : Int)
    (acc : VesselRecord × Nat) (pv : PathValue) :
    ((applyPathValue u t acc pv).1).lastUpdate = acc.1.lastUpdate ∧
    ((applyPathValue u t acc pv).1).id = acc.1.id ∧
    ((applyPathValue u t acc pv).1).context = acc.1.context ∧
    ((applyPathValue u t acc pv).1).isCloudVessel = acc.1.isCloudVessel := by
  obtain ⟨ves, c⟩ := acc
  unfold applyPathValue
  cases pv.value with
  | none => simp
  | some nv =>
    by_cases hp : pv.path = ""
    · simp [hp]
    · simp only [if_neg hp]
      split <;> simp

/-- Folding the path/value pairs of one update preserves the non-data
fields. -/
theorem foldPathValues_fst (u : BusUpdate) (t : Int) (vs : List PathValue) :
    ∀ acc : VesselRecord × Nat,
      ((vs.foldl (applyPathValue u t) acc).1).lastUpdate =
        acc.1.lastUpdate ∧
      ((vs.foldl (applyPathValue u t) acc).1).id = acc.1.id ∧
      ((vs.foldl (applyPathValue u t) acc).1).context = acc.1.context ∧
      ((vs.foldl (applyPathValue u t) acc).1).isCloudVessel =
        acc.1.isCloudVessel := by
  induction vs with
  | nil => intro acc; exact ⟨rfl, rfl, rfl, rfl⟩
  | cons pv rest ih =>
    intro acc
    rw [List.foldl_cons]
    have h1 := ih (applyPathValue u t acc pv)
    have h2 := applyPathValue_fst u t acc pv
    exact ⟨h1.1.trans h2.1, h1.2.1.trans h2.2.1,
      h1.2.2.1.trans h2.2.2.1, h1.2.2.2.trans h2.2.2.2⟩

/-- Folding the whole update list preserves the non-data fields. -/
theorem foldBusUpdates_fst (t : Int) (us : List BusUpdate) :
    ∀ acc : VesselRecord × Nat,
      ((us.foldl (applyBusUpdate t) acc).1).lastUpdate = acc.1.lastUpdate ∧
      ((us.foldl (applyBusUpdate t) acc).1).id = acc.1.id ∧
      ((us.foldl (applyBusUpdate t) acc).1).context = acc.1.context ∧
      ((us.foldl (applyBusUpdate t) acc).1).isCloudVessel =
        acc.1.isCloudVessel := by
  induction us with
  | nil => intro acc; exact ⟨rfl, rfl, rfl, rfl⟩
  | cons u rest ih =>
    intro acc
    rw [List.foldl_cons]
    have h1 := ih (applyBusUpdate t acc u)
    have h2 : ((applyBusUpdate t acc u).1).lastUpdate = acc.1.lastUpdate ∧
        ((applyBusUpdate t acc u).1).id = acc.1.id ∧
        ((applyBusUpdate t acc u).1).context = acc.1.context ∧
        ((applyBusUpdate t acc u).1).isCloudVessel =
          acc.1.isCloudVessel := by
      unfold applyBusUpdate
      cases u.values with
      | none => exact ⟨rfl, rfl, rfl, rfl⟩
      | some vs => exact foldPathValues_fst u t vs acc
    exact ⟨h1.1.trans h2.1, h1.2.1.trans h2.2.1,
      h1.2.2.1.trans h2.2.2.1, h1.2.2.2.trans h2.2.2.2⟩

/-- A delta with a single path/value pair, as the claims about repeated
identical events use. -/
def singleDelta (ctx : String) (src : Option String) (ts : Option Int)
    (p : String) (v : JVal) : Delta :=
  ⟨some ctx, some [⟨src, ts, some [⟨p, some v⟩]⟩]⟩

/-- The single-pair delta whose ingest the C7 counterexample evaluates:
event timestamp 5, processed at time 1000. -/
def cxDelta : Delta :=
  singleDelta "vessels.urn:mrn:imo:mmsi:888" (some "gps") (some 5)
    "navigation.position" (.jPos 1 2)

/-- The record the ingest of `cxDelta` at processing time 1000 produces:
the written field carries the event timestamp 5, but the record's
lastUpdate is the processing time 1000. -/
def rec888 : VesselRecord :=
  { id := "urn:mrn:imo:mmsi:888", context := "vessels.urn:mrn:imo:mmsi:888",
    lastUpdate := 1000,
    data := [("navigation.position",
      FieldValue.mk (.jPos 1 2) (some "gps") 5)],
    isCloudVessel := false }

/-- Counterexample to claim C7: an accepted event carrying timestamp 5,
processed at time 1000, writes one field, yet the record's lastUpdate
becomes the processing time 1000, not the event's timestamp 5 — the
handler assigns lastUpdate before the field loop, unconditionally. -/
theorem ingest_lastUpdate_counterexample :
    (handleVesselUpdate ⟨[], []⟩ cxDelta 1000).2 = 1 ∧
    lookupKey (handleVesselUpdate ⟨[], []⟩ cxDelta
      1000).1.vesselData "urn:mrn:imo:mmsi:888" = some rec888 ∧
    rec888.lastUpdate ≠ 5 :=
  ⟨by decide, by decide, by decide⟩

/-- Claim C7 (amended): every event accepted past the per-vessel throttle
sets the record's lastUpdate to the processing time — this one field is
also the throttle gate, and it is written whether or not any field of the
event survives change detection; the event's timestamp (processing time if
absent) goes only into the timestamps of the individual fields written. -/
theorem ingest_sets_processing_time (st : PluginState) (ctx id : String)
    (t : Int) (us : List BusUpdate)
    (hctx : contextMatch ctx = some id)
    (hvalid : invalidVesselId id = false)
    (hthr : ingestThrottled st id t = false) :
    ∃ r, lookupKey (handleVesselUpdate st ⟨some ctx, some us⟩
        t).1.vesselData id = some r ∧ r.lastUpdate = t := by
  rw [handle_accepted st ctx id t us hctx hvalid hthr]
  refine ⟨(ingestResult st id ctx us t).1, ?_, ?_⟩
  · simp [lookupKey_setKey]
  · have h := (foldBusUpdates_fst t us
      ({ ingestBase st id ctx with lastUpdate := t }, 0)).1
    simpa [ingestResult] using h

/-- Witness for claim C7's amended statement: the `cxDelta` event, with
zero prior state, yields lastUpdate 1000 (the processing time). -/
theorem ingest_sets_processing_time_witness :
    contextMatch "vessels.urn:mrn:imo:mmsi:888" =
      some "urn:mrn:imo:mmsi:888" ∧
    invalidVesselId "urn:mrn:imo:mmsi:888" = false ∧
    ingestThrottled ⟨[], []⟩ "urn:mrn:imo:mmsi:888" 1000 = false ∧
    (∃ r, lookupKey (handleVesselUpdate ⟨[], []⟩
        ⟨some "vessels.urn:mrn:imo:mmsi:888",
          some [⟨some "gps", some 5,
            some [⟨"navigation.position", some (.jPos 1 2)⟩]⟩]⟩
        1000).1.vesselData "urn:mrn:imo:mmsi:888" = some r ∧
      r.lastUpdate = 1000) :=
  ⟨by decide, by decide, by decide,
    ingest_sets_processing_time ⟨[], []⟩ "vessels.urn:mrn:imo:mmsi:888"
      "urn:mrn:imo:mmsi:888" 1000
      [⟨some "gps", some 5, some [⟨"navigation.position", some (.jPos 1 2)⟩]⟩]
      (by decide) (by decide) (by decide)⟩

/-- After one path/value step for `(p, v)`, the record's field at `p`
holds the value `v` (freshly written, overwritten, or left alone because it
was already structurally equal). -/
theorem applyPathValue_writes_value (u : BusUpdate) (t : Int)
    (ves : VesselRecord) (c : Nat) (p : String) (v : JVal) (hp : p ≠ "") :
    ∃ fv, lookupKey ((applyPathValue u t (ves, c) ⟨p, some v⟩).1).data p =
        some fv ∧ fv.value = v := by
  unfold applyPathValue
  simp only [if_neg hp]
  cases hcur : lookupKey ves.data p with
  | none => simp [hcur, lookupKey_setKey]
  | some cur =>
    by_cases hv : cur.value = v
    · simp only [hcur, hv]
      simp
      exact ⟨cur, hcur, hv⟩
    · simp [hcur, hv, lookupKey_setKey]

/-- A path/value step whose value is structurally equal to the stored one
is a no-op: no write, no count. -/
theorem applyPathValue_nochange (u : BusUpdate) (t : Int)
    (ves : VesselRecord) (c : Nat) (p : String) (v : JVal) (fv : FieldValue)
    (hp : p ≠ "") (hcur : lookupKey ves.data p = some fv)
    (hval : fv.value = v) :
    applyPathValue u t (ves, c) ⟨p, some v⟩ = (ves, c) := by
  unfold applyPathValue
  simp [hp, hcur, hval]

/-- Claim C8: repeating an ingest event with identical context, path,
value and timestamp is idempotent: after the first accepted application
the registry field at the path holds the value, and any repetition
produces zero field writes (the changed counter stays 0, whether the
repeat is throttled away or suppressed by structural equality) and leaves
the record's field data unchanged. -/
theorem ingest_idempotent (st : PluginState) (ctx id : String)
    (src : Option String) (ts : Option Int) (p : String) (v : JVal)
    (t₁ t₂ : Int)
    (hctx : contextMatch ctx = some id)
    (hvalid : invalidVesselId id = false)
    (hp : p ≠ "")
    (hthr : ingestThrottled st id t₁ = false) :
    ∃ rec₁,
      lookupKey (handleVesselUpdate st (singleDelta ctx src ts p v)
          t₁).1.vesselData id = some rec₁ ∧
      (∃ fv, lookupKey rec₁.data p = some fv ∧ fv.value = v) ∧
      (handleVesselUpdate (handleVesselUpdate st (singleDelta ctx src ts p v)
          t₁).1 (singleDelta ctx src ts p v) t₂).2 = 0 ∧
      ∃ rec₂,
        lookupKey (handleVesselUpdate (handleVesselUpdate st
            (singleDelta ctx src ts p v) t₁).1 (singleDelta ctx src ts p v)
            t₂).1.vesselData id = some rec₂ ∧
        rec₂.data = rec₁.data := by
  have hfirst := handle_accepted st ctx id t₁
    [⟨src, ts, some [⟨p, some v⟩]⟩] hctx hvalid hthr
  have hres₁ : ingestResult st id ctx [⟨src, ts, some [⟨p, some v⟩]⟩] t₁ =
      applyPathValue ⟨src, ts, some [⟨p, some v⟩]⟩ t₁
        ({ ingestBase st id ctx with lastUpdate := t₁ }, 0) ⟨p, some v⟩ := by
    simp [ingestResult, applyBusUpdate]
  rw [show singleDelta ctx src ts p v =
    (⟨some ctx, some [⟨src, ts, some [⟨p, some v⟩]⟩]⟩ : Delta) from rfl]
  rw [hfirst, hres₁]
  obtain ⟨fv, hfv, hfvv⟩ := applyPathValue_writes_value
    ⟨src, ts, some [⟨p, some v⟩]⟩ t₁
    { ingestBase st id ctx with lastUpdate := t₁ } 0 p v hp
  set rec₁ := (applyPathValue ⟨src, ts, some [⟨p, some v⟩]⟩ t₁
    ({ ingestBase st id ctx with lastUpdate := t₁ }, 0) ⟨p, some v⟩).1
    with hrec₁
  set st₁ : PluginState :=
    { st with vesselData := setKey st.vesselData id rec₁ } with hst₁
  have hlook₁ : lookupKey st₁.vesselData id = some rec₁ := by
    simp [hst₁, lookupKey_setKey]
  refine ⟨rec₁, hlook₁, ⟨fv, hfv, hfvv⟩, ?_⟩
  by_cases hthr₂ : ingestThrottled st₁ id t₂ = true
  · rw [handle_throttled st₁ ctx id t₂ _ hctx hvalid hthr₂]
    exact ⟨rfl, rec₁, hlook₁, rfl⟩
  · replace hthr₂ : ingestThrottled st₁ id t₂ = false := by
      simpa using hthr₂
    rw [handle_accepted st₁ ctx id t₂ _ hctx hvalid hthr₂]
    have hbase₂ : ingestBase st₁ id ctx = rec₁ := by
      simp [ingestBase, hlook₁]
    have hres₂ : ingestResult st₁ id ctx [⟨src, ts, some [⟨p, some v⟩]⟩] t₂ =
        ({ rec₁ with lastUpdate := t₂ }, 0) := by
      simp only [ingestResult, hbase₂, List.foldl_cons, List.foldl_nil,
        applyBusUpdate]
      exact applyPathValue_nochange _ t₂ _ 0 p v fv hp hfv hfvv
    rw [hres₂]
    exact ⟨rfl, { rec₁ with lastUpdate := t₂ }, by simp [lookupKey_setKey],
      rfl⟩

/-- Witness for claim C8 at a concrete input: the same position event
ingested twice, 3 seconds apart. -/
theorem ingest_idempotent_witness :
    contextMatch "vessels.urn:mrn:imo:mmsi:999" =
      some "urn:mrn:imo:mmsi:999" ∧
    invalidVesselId "urn:mrn:imo:mmsi:999" = false ∧
    ("navigation.position" : String) ≠ "" ∧
    ingestThrottled ⟨[], []⟩ "urn:mrn:imo:mmsi:999" 1000 = false ∧
    (∃ rec₁,
      lookupKey (handleVesselUpdate ⟨[], []⟩ (singleDelta
          "vessels.urn:mrn:imo:mmsi:999" (some "ais") (some 900)
          "navigation.position" (.jPos 1 2)) 1000).1.vesselData
          "urn:mrn:imo:mmsi:999" = some rec₁ ∧
      (∃ fv, lookupKey rec₁.data "navigation.position" = some fv ∧
        fv.value = .jPos 1 2) ∧
      (handleVesselUpdate (handleVesselUpdate ⟨[], []⟩ (singleDelta
          "vessels.urn:mrn:imo:mmsi:999" (some "ais") (some 900)
          "navigation.position" (.jPos 1 2)) 1000).1 (singleDelta
          "vessels.urn:mrn:imo:mmsi:999" (some "ais") (some 900)
          "navigation.position" (.jPos 1 2)) 4000).2 = 0 ∧
      ∃ rec₂,
        lookupKey (handleVesselUpdate (handleVesselUpdate ⟨[], []⟩
            (singleDelta "vessels.urn:mrn:imo:mmsi:999" (some "ais")
              (some 900) "navigation.position" (.jPos 1 2)) 1000).1
            (singleDelta "vessels.urn:mrn:imo:mmsi:999" (some "ais")
              (some 900) "navigation.position" (.jPos 1 2))
            4000).1.vesselData "urn:mrn:imo:mmsi:999" = some rec₂ ∧
        rec₂.data = rec₁.data) :=
  ⟨by decide, by decide, by decide, by decide,
    ingest_idempotent ⟨[], []⟩ "vessels.urn:mrn:imo:mmsi:999"
      "urn:mrn:imo:mmsi:999" (some "ais") (some 900) "navigation.position"
      (.jPos 1 2) 1000 4000 (by decide) (by decide) (by decide) (by decide)⟩

/-! ## Registry key validity -/

/-- A validity check that passes guarantees the three literal exclusions. -/
theorem validId_ne (idr : String) (h : invalidVesselId idr = false) :
    idr ≠ "" ∧ idr ≠ "undefined" ∧ idr ≠ "null" := by
  simp only [invalidVesselId, Bool.or_eq_false_iff,
    decide_eq_false_iff_not] at h
  exact ⟨h.1.1.1, h.1.1.2, h.1.2⟩

/-- Keys derived from a cloud mmsi carry the urn prefix, so they are never
empty nor the literal tokens. -/
theorem mkVesselId_ne (m : String) :
    mkVesselId m ≠ "" ∧ mkVesselId m ≠ "undefined" ∧ mkVesselId m ≠ "null" := by
  have hlen : (mkVesselId m).length = 17 + m.length := by
    have h17 : ("urn:mrn:imo:mmsi:" : String).length = 17 := rfl
    rw [mkVesselId, String.length_append, h17]
  refine ⟨?_, ?_, ?_⟩ <;> intro h
  · have h0 : ("" : String).length = 0 := rfl
    rw [h, h0] at hlen; omega
  · have h9 : ("undefined" : String).length = 9 := rfl
    rw [h, h9] at hlen; omega
  · have h4 : ("null" : String).length = 4 := rfl
    rw [h, h4] at hlen; omega

/-- The ingest handler either leaves the Map alone or writes one entry
whose key passed the validity check. -/
theorem handle_vesselData_shape (st : PluginState) (d : Delta) (t : Int) :
    (handleVesselUpdate st d t).1.vesselData = st.vesselData ∨
    ∃ idr rec, invalidVesselId idr = false ∧
      (handleVesselUpdate st d t).1.vesselData =
        setKey st.vesselData idr rec := by
  obtain ⟨dc, du⟩ := d
  cases dc with
  | none => left; rfl
  | some ctx =>
    cases du with
    | none => left; rfl
    | some us =>
      cases hm : contextMatch ctx with
      | none => left; simp [handleVesselUpdate, hm]
      | some idr =>
        by_cases hv : invalidVesselId idr = true
        · left; simp [handleVesselUpdate, hm, hv]
        · replace hv : invalidVesselId idr = false := by simpa using hv
          by_cases ht : ingestThrottled st idr t = true
          · left; simp [handleVesselUpdate, hm, hv, ht]
          · replace ht : ingestThrottled st idr t = false := by
              simpa using ht
            right
            exact ⟨idr, (ingestResult st idr ctx us t).1, hv,
              by simp [handleVesselUpdate, hm, hv, ht]⟩

/-- The cloud merge preserves any per-key property that holds of every
urn-derived key. -/
theorem processCloud_keys (now : Int) (P : String → Prop)
    (hmk : ∀ m, P (mkVesselId m)) (l : List CloudVessel) :
    ∀ st : PluginState, (∀ p ∈ st.vesselData, P p.1) →
      ∀ p ∈ (processCloudVessels st l now).vesselData, P p.1 := by
  induction l with
  | nil => intro st h; exact h
  | cons cv rest ih =>
    intro st h
    apply ih
    rcases processOne_shape st cv now with hs | ⟨m, _, _, hacc, _⟩
    · show ∀ p ∈ ((processOneCloudVessel st cv now).1).vesselData, P p.1
      rw [hs]
      exact h
    · show ∀ p ∈ ((processOneCloudVessel st cv now).1).vesselData, P p.1
      rw [hacc]
      intro p hp
      simp only [acceptCloud] at hp
      rcases mem_setKey hp with rfl | hp'
      · exact hmk m
      · exact h p hp'

/-- Claim C3 (amended): after any sequence of ingest and cloud-merge
operations from the empty registry, no key is the empty string or the
literal token "undefined" or "null" (ingest additionally rejects keys
containing "undefined" as a substring; the cloud merge does not, see the
counterexample). -/
theorem registry_keys_valid (st : PluginState) (h : Reachable st) :
    ∀ p ∈ st.vesselData, p.1 ≠ "" ∧ p.1 ≠ "undefined" ∧ p.1 ≠ "null" := by
  induction h with
  | init => simp
  | ingest st0 d t _ ih =>
    rcases handle_vesselData_shape st0 d t with he | ⟨idr, rec, hval, he⟩
    · intro p hp; rw [he] at hp; exact ih p hp
    · intro p hp
      rw [he] at hp
      rcases mem_setKey hp with rfl | hp'
      · exact validId_ne idr hval
      · exact ih p hp'
  | cloud st0 l t _ ih =>
    exact processCloud_keys t
      (fun k => k ≠ "" ∧ k ≠ "undefined" ∧ k ≠ "null")
      (fun m => mkVesselId_ne m) l st0 ih

/-- A well-formed cloud vessel for the C3 witness. -/
def cvOk999 : CloudVessel :=
  { mmsi := some "999", name := none, call_sign := none, imo_number := none,
    design_length := none, design_beam := none, design_draft := none,
    last_position := none, latest_navigation := none }

def rec999 : VesselRecord :=
  buildCloudRecord cvOk999 "urn:mrn:imo:mmsi:999"
    "vessels.urn:mrn:imo:mmsi:999" 0 0

/-- Witness for claim C3's amended statement at a concrete reachable
state. -/
theorem registry_keys_valid_witness :
    ("urn:mrn:imo:mmsi:999", rec999) ∈
      (processCloudVessels ⟨[], []⟩ [cvOk999] 0).vesselData ∧
    ("urn:mrn:imo:mmsi:999" ≠ "" ∧ "urn:mrn:imo:mmsi:999" ≠ "undefined" ∧
      "urn:mrn:imo:mmsi:999" ≠ "null") :=
  ⟨by decide,
    registry_keys_valid _ (Reachable.cloud _ [cvOk999] 0 Reachable.init)
      ("urn:mrn:imo:mmsi:999", rec999) (by decide)⟩

/-- A cloud vessel whose mmsi contains "undefined" as a proper substring:
the merge's validity check tests only exact equality with the tokens. -/
def cvBadMmsi : CloudVessel :=
  { mmsi := some "123undefined", name := none, call_sign := none,
    imo_number := none, design_length := none, design_beam := none,
    design_draft := none, last_position := none, latest_navigation := none }

/-- Counterexample to claim C3: one cloud merge from the empty registry
admits the key "urn:mrn:imo:mmsi:123undefined", which contains the
substring "undefined" and which the system's own validity check (used by
ingest and the reporting filter) classifies as invalid. -/
theorem cloudMerge_admits_undefined_key :
    lookupKey (processCloudVessels ⟨[], []⟩ [cvBadMmsi] 0).vesselData
      "urn:mrn:imo:mmsi:123undefined" ≠ none ∧
    listContainsSeq ("undefined".toList)
      ("urn:mrn:imo:mmsi:123undefined".toList) = true ∧
    invalidVesselId "urn:mrn:imo:mmsi:123undefined" = true :=
  ⟨by decide, by decide, by decide⟩

/-! ## Re-injection whitelist -/

/-- The per-field decision of the re-injection: kept exactly when the path
is whitelisted and the value is not null. -/
def reinjectEntry (pd : String × FieldValue) : Option (String × JVal) :=
  if safeSignalKPaths.contains pd.1 = true ∧ pd.2.value ≠ JVal.jNull then
    some (pd.1, pd.2.value)
  else none

/-- The re-injection fold as a filterMap. -/
theorem sendVesselDelta_eq (ves : VesselRecord) :
    sendVesselDelta ves = ves.data.filterMap reinjectEntry := by
  have aux : ∀ (l : List (String × FieldValue))
      (acc : List (String × JVal)),
      l.foldl (fun acc pd =>
        if safeSignalKPaths.contains pd.1 then
          if pd.2.value ≠ JVal.jNull then acc ++ [(pd.1, pd.2.value)]
          else acc
        else acc) acc =
      acc ++ l.filterMap reinjectEntry := by
    intro l
    induction l with
    | nil => intro acc; simp
    | cons pd rest ih =>
      intro acc
      rw [List.foldl_cons]
      by_cases hc : safeSignalKPaths.contains pd.1 = true
      · by_cases hn : pd.2.value = JVal.jNull
        · have hf0 : reinjectEntry pd = none := by
            unfold reinjectEntry
            rw [if_neg]
            intro hx
            exact hx.2 hn
          rw [if_pos hc,
            if_neg (show ¬(pd.2.value ≠ JVal.jNull) from fun hx => hx hn),
            List.filterMap_cons_none hf0, ih acc]
        · have hf1 : reinjectEntry pd = some (pd.1, pd.2.value) := by
            unfold reinjectEntry
            rw [if_pos ⟨hc, hn⟩]
          rw [if_pos hc, if_pos (show pd.2.value ≠ JVal.jNull from hn),
            List.filterMap_cons_some hf1,
            ih (acc ++ [(pd.1, pd.2.value)]), List.append_assoc]
          rfl
      · have hf0 : reinjectEntry pd = none := by
          unfold reinjectEntry
          rw [if_neg]
          intro hx
          exact hc hx.1
        rw [if_neg hc, List.filterMap_cons_none hf0, ih acc]
  exact aux ves.data []

/-- Every field value the cloud conversion builds is a non-null payload. -/
theorem buildCloudRecord_values_ne_null (cv : CloudVessel)
    (vesselId context : String) (actualTs now : Int) :
    ∀ pd ∈ (buildCloudRecord cv vesselId context actualTs now).data,
      pd.2.value ≠ JVal.jNull := by
  intro pd hpd
  simp only [buildCloudRecord, List.mem_append] at hpd
  rcases hpd with ((((((hpd | hpd) | hpd) | hpd) | hpd) | hpd) | hpd) | hpd
  · split at hpd <;> simp_all
  · split at hpd <;> simp_all
  · split at hpd <;> simp_all
  · split at hpd <;> simp_all
  · split at hpd <;> simp_all
  · split at hpd <;> simp_all
  · split at hpd <;> simp_all
  · split at hpd
    · simp only [List.mem_append] at hpd
      rcases hpd with (((hpd | hpd) | hpd) | hpd) | hpd <;>
        split at hpd <;> simp_all
    · simp at hpd

/-- The record a merge step emits for re-injection is the one it freshly
built from the cloud vessel. -/
theorem processOne_emits_build (st : PluginState) (cv : CloudVessel)
    (now : Int) (r : VesselRecord)
    (h : (processOneCloudVessel st cv now).2 = some r) :
    ∃ m, cv.mmsi = some m ∧
      r = buildCloudRecord cv (mkVesselId m) (mkContext m)
        (cloudDerivedTs cv now) now := by
  rcases processOne_shape st cv now with hs | ⟨m, hm, _, hacc, _⟩
  · rw [hs] at h; cases h
  · rw [hacc] at h
    simp only [acceptCloud] at h
    injection h with h'
    exact ⟨m, hm, h'.symm⟩

/-- Claim C10: the delta re-injected for an accepted cloud vessel carries
exactly the whitelisted dynamic paths present in the merged record
(position, speed-over-ground, course-over-ground-true, heading-true,
rate-of-turn, and the identifier field), and never a static field (name,
design dimensions, registration or call-sign data). -/
theorem cloudReinjection_whitelist (st : PluginState) (cv : CloudVessel)
    (now : Int) (r : VesselRecord)
    (h : (processOneCloudVessel st cv now).2 = some r) :
    (∀ p, p ∈ (sendVesselDelta r).map Prod.fst ↔
      (p ∈ safeSignalKPaths ∧ ∃ fv, (p, fv) ∈ r.data)) ∧
    (∀ p ∈ (sendVesselDelta r).map Prod.fst,
      p ≠ "name" ∧ ("design.".toList).isPrefixOf p.toList = false ∧
      p ≠ "registrations.imo" ∧ p ≠ "communication.callsignVhf") := by
  obtain ⟨m, hm, hr⟩ := processOne_emits_build st cv now r h
  have hnn : ∀ pd ∈ r.data, pd.2.value ≠ JVal.jNull := by
    rw [hr]
    exact buildCloudRecord_values_ne_null cv _ _ _ _
  have hmain : ∀ p, p ∈ (sendVesselDelta r).map Prod.fst ↔
      (p ∈ safeSignalKPaths ∧ ∃ fv, (p, fv) ∈ r.data) := by
    intro p
    rw [sendVesselDelta_eq]
    constructor
    · intro hp
      simp only [List.mem_map, List.mem_filterMap] at hp
      obtain ⟨a, ⟨pd, hpd, hg⟩, ha⟩ := hp
      unfold reinjectEntry at hg
      by_cases hcond : safeSignalKPaths.contains pd.1 = true ∧
          pd.2.value ≠ JVal.jNull
      · rw [if_pos hcond] at hg
        injection hg with hg
        subst hg
        simp only at ha
        subst ha
        refine ⟨by simpa using hcond.1, pd.2, ?_⟩
        simpa using hpd
      · rw [if_neg hcond] at hg; cases hg
    · rintro ⟨hsafe, fv, hmem⟩
      simp only [List.mem_map, List.mem_filterMap]
      refine ⟨(p, fv.value), ⟨(p, fv), hmem, ?_⟩, rfl⟩
      unfold reinjectEntry
      rw [if_pos ⟨by simpa using hsafe, hnn (p, fv) hmem⟩]
  refine ⟨hmain, ?_⟩
  intro p hp
  have hsafe := ((hmain p).mp hp).1
  simp only [safeSignalKPaths, List.mem_cons, List.not_mem_nil,
    or_false] at hsafe
  rcases hsafe with rfl | rfl | rfl | rfl | rfl | rfl <;>
    exact ⟨by decide, by decide, by decide, by decide⟩

/-- A feature-rich cloud vessel for the C10 witness. -/
def cvRich : CloudVessel :=
  { mmsi := some "101", name := some "Vessel", call_sign := some "AB",
    imo_number := none, design_length := some 30, design_beam := none,
    design_draft := none,
    last_position := some (LastPosition.mk 1 2 (some 42)),
    latest_navigation :=
      some (LatestNavigation.mk (some 90) (some 10) none (some 3)
        (some "motoring") (some 42)) }

def recRich : VesselRecord :=
  buildCloudRecord cvRich (mkVesselId "101") (mkContext "101")
    (cloudDerivedTs cvRich 50) 50

/-- Witness for claim C10 at a concrete accepted vessel. -/
theorem cloudReinjection_whitelist_witness :
    (processOneCloudVessel ⟨[], []⟩ cvRich 50).2 = some recRich ∧
    ("navigation.position" ∈ (sendVesselDelta recRich).map Prod.fst ↔
      ("navigation.position" ∈ safeSignalKPaths ∧
        ∃ fv, ("navigation.position", fv) ∈ recRich.data)) ∧
    ("navigation.position" ≠ "name" ∧
      ("design.".toList).isPrefixOf ("navigation.position".toList) = false ∧
      "navigation.position" ≠ "registrations.imo" ∧
      "navigation.position" ≠ "communication.callsignVhf") :=
  ⟨by decide,
    (cloudReinjection_whitelist ⟨[], []⟩ cvRich 50 recRich (by decide)).1
      "navigation.position",
    (cloudReinjection_whitelist ⟨[], []⟩ cvRich 50 recRich (by decide)).2
      "navigation.position" (by decide)⟩

end AisFleet
